import Mathlib

/-!
Shallow embedding of the transaction-to-insight analytics pipeline of
`finance_ai` (src/finance_ai/*.py): configuration, classifier
(preprocessing.py), feature engine (feature_engineering.py), forecaster
(forecasting.py), quality assessor (data_quality.py) and insight composer
(insights.py).  Amounts are embedded as rationals; pandas timestamps as a
civil date plus a rational time-of-day, with an absolute rational day
number used for ordering and window arithmetic.  Statistical model
internals (IsolationForest, OneClassSVM, ExponentialSmoothing) are
external black boxes per their call sites: they enter the embedding as
explicit function / `Except` parameters standing for the value the
library call returns (or the exception it raises).
-/

namespace FinanceAI

set_option allowUnsafeReducibility true

/- The rational arithmetic of the standard library is sealed for
definitional unfolding; re-opening it lets `decide` evaluate the concrete
instances below inside the kernel. -/
attribute [local semireducible] Rat.add Rat.sub Rat.mul Rat.inv

/-! ### Strings and keyword matching

`config.py` performs case-insensitive substring matching via
`keyword in description.lower()`.  `strLower` maps `Char.toLower` over the
string (agrees with Python's `str.lower` on the ASCII keywords used by the
configuration); `containsSub hay needle` is Python's `needle in hay`. -/

def strLower (s : String) : String := String.mk (s.toList.map Char.toLower)

def containsSub (hay needle : String) : Bool :=
  (List.range (hay.toList.length + 1)).any fun i =>
    needle.toList.isPrefixOf (hay.toList.drop i)

def anyKeyword (keywords : List String) (descriptionLower : String) : Bool :=
  keywords.any fun k => containsSub descriptionLower k

/-! ### Configuration (`config.py`, `FinanceAIConfig` and sub-configs)

Only the fields the analytics core reads are embedded (paths and column
names resolve to the fixed column set of the embedded records).  The
category mapping is an ordered association list, matching the insertion
order of the Python `dict`. -/

structure QualityConfig where
  score_threshold : ℚ := -5/100
  min_months : ℕ := 4
  deriving Repr, DecidableEq

structure ForecastConfig where
  horizon_months : ℕ := 6
  seasonal_periods : ℕ := 12
  damped_trend : Bool := true
  deriving Repr, DecidableEq

structure Config where
  income_keywords : List String :=
    ["pagamento recebido", "recebido", "transferencia", "salary",
     "deposito", "estorno"]
  refund_keywords : List String :=
    ["estorno", "chargeback", "reversal", "refund"]
  subscription_keywords : List String :=
    ["spotify", "netflix", "microsoft", "apple", "amazon", "google",
     "openai", "nuv"]
  category_keywords : List (String × List String) :=
    [("Alimentacao",
      ["yakide", "dominos", "subway", "pizz", "pizzaria", "rest",
       "restaurante", "ifood", "ubereats", "rapi", "padaria", "cafe",
       "cafeteria", "bistro", "lanch", "lanche", "mercado", "quiosque",
       "sushi", "burger", "fast food", "zona sul", "mate"]),
     ("Supermercado",
      ["supermercado", "hiper", "mercadopago", "mercado livre", "bahamas",
       "pao de acucar", "atacadao", "assai", "carrefour", "guanabara",
       "ultra", "casa do biscoito"]),
     ("Transporte",
      ["uber", "99", "cabify", "nupay", "clickbus", "rodoviaria",
       "passagem", "passagens", "bilhete", "metro", "bus", "trip",
       "pedagio", "estacionamento", "locadora"]),
     ("Combustivel",
      ["posto", "ipiranga", "shell", "petrobras", "combust", "gasolina",
       "diesel", "alcool"]),
     ("Habitacao",
      ["aluguel", "condominio", "imobili", "energia", "luz", "agua",
       "gas", "materiais", "construcao", "manutencao", "ferramenta"]),
     ("Telecom",
      ["internet", "banda larga", "fibra", "telefon", "celular", "claro",
       "vivo", "tim", "oi", "net", "sky"]),
     ("Saude",
      ["farm", "drog", "clin", "med", "hospital", "laboratorio", "odonto",
       "dental"]),
     ("Educacao",
      ["curso", "livro", "escola", "faculdade", "univers", "idioma",
       "catarse"]),
     ("Servicos",
      ["cassiano", "vivian", "serv", "consult", "pagamento", "okto",
       "assessoria", "assistencia", "contab", "agencia", "manutencao"]),
     ("Entretenimento",
      ["cinema", "teatro", "show", "evento", "ingresso", "netflix",
       "spotify", "prime video", "disney", "hbo", "game", "playstation",
       "xbox", "steam", "cinemark"]),
     ("Lazer",
      ["jfk", "taverna", "pub", "bar", "parque", "club", "piscina", "spa",
       "esporte"]),
     ("Compras",
      ["shopping", "loja", "varejo", "magalu", "americanas", "casas bahia",
       "shopee", "shein", "centauro", "fast shop", "decathlon",
       "riachuelo"]),
     ("Beleza",
      ["salon", "beleza", "cosmet", "perfum", "sephora", "barbearia",
       "estetica"]),
     ("Pets",
      ["petz", "petlove", "pet shop", "agropecu", "zoon"]),
     ("Transferencias",
      ["pix", "transferencia", "transfer", "ted", "doc", "envio",
       "enviar", "cash out", "picpay", "wise", "remessa"]),
     ("Investimentos",
      ["invest", "tesouro", "bolsa", "acoes", "fundos", "cdb", "lci",
       "lca", "xp", "rico", "modal", "corretora"]),
     ("Tecnologia",
      ["microsoft", "google", "apple", "amazon digital", "openai",
       "hardware", "software", "eletron", "gad"]),
     ("Financeiro",
      ["juros", "encerramento", "imposto", "iof", "tarifa", "taxa",
       "anuidade", "banco"]),
     ("ImpostosETaxas",
      ["iptu", "ipva", "darf", "licenc"]),
     ("Seguros",
      ["seguro", "porto seguro", "bradesco seguros", "sulamerica",
       "mapfre"]),
     ("Viagem",
      ["airbnb", "hotel", "ticket", "passagens", "viagem", "booking",
       "decolar", "maxmilhas"]),
     ("Outros", [])]
  quality : QualityConfig := {}
  forecast : ForecastConfig := {}
  deriving Repr, DecidableEq

def defaultConfig : Config := {}

/-- `FinanceAIConfig.category_for_description`: first category in the
ordered mapping with any substring match in the lowercased description,
defaulting to `"Outros"`. -/
def categoryFor (cfg : Config) (description : String) : String :=
  let dl := strLower description
  match cfg.category_keywords.find? (fun ck => anyKeyword ck.2 dl) with
  | some ck => ck.1
  | none => "Outros"

/-- `FinanceAIConfig.is_income`: every negative raw amount is income;
otherwise match the income keyword set. -/
def isIncome (cfg : Config) (description : String) (amount : ℚ) : Bool :=
  if amount < 0 then true else anyKeyword cfg.income_keywords (strLower description)

/-- `FinanceAIConfig.is_refund`: every negative raw amount passes;
otherwise match the refund keyword set. -/
def isRefund (cfg : Config) (description : String) (amount : ℚ) : Bool :=
  if amount < 0 then true else anyKeyword cfg.refund_keywords (strLower description)

/-- `FinanceAIConfig.is_subscription`. -/
def isSubscription (cfg : Config) (description : String) : Bool :=
  anyKeyword cfg.subscription_keywords (strLower description)

/-! ### Classifier (`preprocessing._classify_transaction`) -/

/-- `_classify_transaction`: returns `(transaction_type, signed_amount)`
with income checked first, then refund, else expense. -/
def classifyTransaction (cfg : Config) (description : String) (amount : ℚ) :
    String × ℚ :=
  let absAmount := |amount|
  if isIncome cfg description amount then ("income", absAmount)
  else if isRefund cfg description amount then ("refund", absAmount)
  else ("expense", -absAmount)

/-! ### Timestamps

pandas `Timestamp`s are embedded as a civil date plus a rational
time-of-day measured in days (`0 ≤ tod < 1` for well-formed inputs).
`daysFromCivil` is the standard proleptic-Gregorian day-number algorithm
(epoch 1970-01-01 ↦ 0); `absT` is the absolute time in days used for
ordering, for the `7D`/`30D`/`90D` rolling windows and for the resample
bucket labels. -/

structure Timestamp where
  year : ℤ
  month : ℤ
  day : ℤ
  tod : ℚ := 0
  deriving Repr, DecidableEq

def daysFromCivil (y m d : ℤ) : ℤ :=
  let y' := if m ≤ 2 then y - 1 else y
  let era := Int.ediv y' 400
  let yoe := y' - era * 400
  let doy := Int.ediv (153 * (if 2 < m then m - 3 else m + 9) + 2) 5 + d - 1
  let doe := yoe * 365 + Int.ediv yoe 4 - Int.ediv yoe 100 + doy
  era * 146097 + doe - 719468

def Timestamp.dayNumber (t : Timestamp) : ℤ := daysFromCivil t.year t.month t.day

def absT (t : Timestamp) : ℚ := (t.dayNumber : ℚ) + t.tod

/-- Linear month index: `monthIdx ⟨y, m, ..⟩ = 12 y + (m - 1)`; the
calendar-month resample buckets of `df["month"]` and `resample("M")`. -/
def Timestamp.monthIdx (t : Timestamp) : ℤ := 12 * t.year + (t.month - 1)

/-- Absolute time (midnight) of the month-end label of linear month `mi`:
the day before the first day of the following month, matching the
`resample("M")` / `freq="M"` label convention. -/
def monthEndAbs (mi : ℤ) : ℚ :=
  (daysFromCivil (Int.ediv (mi + 1) 12) (Int.emod (mi + 1) 12 + 1) 1 - 1 : ℤ)

/-- pandas `dt.dayofweek` (Monday = 0); 1970-01-01 is a Thursday. -/
def Timestamp.dayOfWeek (t : Timestamp) : ℤ := Int.emod (t.dayNumber + 3) 7

/-! ### Prepared transaction records (`preprocessing.prepare_transactions`)

A `Tx` is one row of the prepared table with the derived columns the
analytics core reads downstream.  The raw `amount` column is overwritten
with the signed amount, as in the source.  The `daily_spend_zscore`
column is the one derived column left out of the embedding: its value
passes through a population standard deviation (a square root, irrational
over ℚ) and is consumed by no embedded stage. -/

structure RawTx where
  /-- `to_datetime(..., errors="coerce")`: unparseable dates are `none`
  and their rows are dropped by `dropna`. -/
  date : Option Timestamp
  /-- `none` models a missing description, replaced by the sentinel. -/
  title : Option String
  amount : ℚ
  deriving Repr, DecidableEq

structure Tx where
  ts : Timestamp
  title : String
  amount : ℚ
  transaction_type : String
  category : String
  isSub : Bool
  abs_amount : ℚ
  day_of_week : ℤ
  is_weekend : Bool
  date_only : ℤ
  monthIdx : ℤ
  deriving Repr, DecidableEq

/-- Ordering relation used by `sort_values(cfg.date_column)`. -/
def leT (a b : Tx) : Prop := absT a.ts ≤ absT b.ts

instance : DecidableRel leT := fun a b =>
  inferInstanceAs (Decidable (absT a.ts ≤ absT b.ts))

instance : IsTotal Tx leT := ⟨fun a b => le_total (absT a.ts) (absT b.ts)⟩

instance : IsTrans Tx leT := ⟨fun _ _ _ => le_trans⟩

/-- Sort of the prepared table by timestamp.  `sort_values` uses an
introsort that degenerates to a stable insertion sort on the short arrays
of the concrete instances below; theorems quantifying over tables with
tied timestamps only ever rely on properties shared by every ascending
sort. -/
def sortT (l : List Tx) : List Tx := List.insertionSort leT l

def classifyRaw (cfg : Config) (r : RawTx) (ts : Timestamp) : Tx :=
  let desc := r.title.getD "Desconhecido"
  let c := classifyTransaction cfg desc r.amount
  { ts := ts
    title := desc
    amount := c.2
    transaction_type := c.1
    category := categoryFor cfg desc
    isSub := isSubscription cfg desc
    abs_amount := |c.2|
    day_of_week := ts.dayOfWeek
    is_weekend := ts.dayOfWeek = 5 ∨ ts.dayOfWeek = 6
    date_only := ts.dayNumber
    monthIdx := ts.monthIdx }

/-- `prepare_transactions`: drop rows whose date failed to parse, apply
the sentinel description, classify, derive the calendar columns and sort
ascending by timestamp. -/
def prepareTransactions (cfg : Config) (rows : List RawTx) : List Tx :=
  sortT (rows.filterMap fun r => r.date.map (classifyRaw cfg r))

/-- `df["running_balance"] = df["amount"].cumsum()` on the sorted table. -/
def runningBalance (l : List Tx) : List ℚ :=
  (l.map Tx.amount).scanl (· + ·) 0 |>.drop 1

/-! ### Feature engine (`feature_engineering.engineer_features`)

The table is sorted by timestamp and indexed by it.  The expense series
is `amount` where `transaction_type == "expense"` else `0.0`; the income
series is `amount` where `transaction_type != "expense"` else `0.0`.
A time-based `rolling("wD", min_periods=1).sum()` at a row covers, of the
positions up to and including that row, those whose timestamp lies in the
left-open interval `(t - w, t]` (pandas offset windows are closed on the
right only); with duplicate timestamps only the positions at or before
the current row enter its window. -/

def isExpenseTx (tx : Tx) : Bool := tx.transaction_type == "expense"

/-- Value of the `expenses`/`incomes` series at a row. -/
def seriesVal (income : Bool) (tx : Tx) : ℚ :=
  if isExpenseTx tx ≠ income then tx.amount else 0

/-- Trailing-window sum: `pre` is the list of rows at positions up to and
including the current row `cur` (in sorted order). -/
def windowSum (income : Bool) (w : ℚ) (pre : List Tx) (cur : Tx) : ℚ :=
  ((pre.filter fun s => decide (absT cur.ts - w < absT s.ts)).map
    (seriesVal income)).sum

structure FeatRow where
  tx : Tx
  rolling_7d_spend : ℚ
  rolling_30d_spend : ℚ
  rolling_90d_spend : ℚ
  rolling_7d_income : ℚ
  rolling_30d_income : ℚ
  deriving Repr, DecidableEq

def rollRow (pre : List Tx) (cur : Tx) : FeatRow :=
  { tx := cur
    rolling_7d_spend := windowSum false 7 pre cur
    rolling_30d_spend := windowSum false 30 pre cur
    rolling_90d_spend := windowSum false 90 pre cur
    rolling_7d_income := windowSum true 7 pre cur
    rolling_30d_income := windowSum true 30 pre cur }

/-- One pass over the sorted table, threading the rows seen so far
(`pre`); the row for `c` is computed from `pre ++ [c]`. -/
def scanRows (pre : List Tx) : List Tx → List FeatRow
  | [] => []
  | c :: rest => rollRow (pre ++ [c]) c :: scanRows (pre ++ [c]) rest

/-- The five time-based rolling columns of `engineer_features`. -/
def rollingFeatures (l : List Tx) : List FeatRow := scanRows [] (sortT l)

/-- Records at or before the cut instant `t` ("past-and-present
history up to and including a given record's timestamp"). -/
def cutoff (t : ℚ) (tx : Tx) : Bool := decide (absT tx.ts ≤ t)

/-- Strict timestamp order; total on tables with pairwise-distinct
timestamps. -/
def ltT (a b : Tx) : Prop := absT a.ts < absT b.ts

instance : IsAntisymm Tx ltT := ⟨fun _ _ h1 h2 => absurd h2 (lt_asymm h1)⟩

/-- `expenses.resample("M").sum()` (resp. incomes): one bucket per
calendar month from the month of the first row of the sorted table to the
month of its last row, labelled by the month-end timestamp, holding the
sum of the series over the bucket (`0` for gap months). -/
def monthTotals (income : Bool) (s : List Tx) : List (ℚ × ℚ) :=
  match s with
  | [] => []
  | h :: t =>
    let lo := h.monthIdx
    let hi := ((h :: t).getLast (by simp)).monthIdx
    (List.range (hi - lo + 1).toNat).map fun i =>
      let mi : ℤ := lo + i
      (monthEndAbs mi,
       (((h :: t).filter fun x => x.monthIdx == mi).map
         (seriesVal income)).sum)

/-- `.reindex(df.index, method="ffill")`: the value at the last bucket
label at or before `t`, `none` (float `NaN`) when no label precedes `t`. -/
def ffillAt (buckets : List (ℚ × ℚ)) (t : ℚ) : Option ℚ :=
  ((buckets.filter fun lv => decide (lv.1 ≤ t)).getLast?).map Prod.snd

structure EngRow where
  base : FeatRow
  month_total_expense : Option ℚ
  month_total_income : Option ℚ
  deriving Repr, DecidableEq

/-- `engineer_features` restricted to the columns representable over ℚ:
the five rolling sums plus the forward-filled month totals
(`daily_spend_zscore` is excluded, see `Tx`). -/
def engineerFeatures (l : List Tx) : List EngRow :=
  let s := sortT l
  let mte := monthTotals false s
  let mti := monthTotals true s
  (scanRows [] s).map fun row =>
    { base := row
      month_total_expense := ffillAt mte (absT row.tx.ts)
      month_total_income := ffillAt mti (absT row.tx.ts) }

/-! ### Forecaster (`forecasting.py`)

`ExponentialSmoothing(...).fit(...).forecast(...)` is a black-box model
call; the whole `try` body is abstracted by a `fit` parameter carrying
either the projected values together with the fitted model's summary
text, or the message of the exception the library raised.  The forecast
values are kept without their datetime index (in the empty-history branch
that index starts at the wall clock, `pd.Timestamp.utcnow()`). -/

structure ForecastResult where
  history : List (ℤ × ℚ)
  forecast : List ℚ
  model_summary : String
  deriving Repr, DecidableEq

def sortedDedup (l : List ℤ) : List ℤ :=
  (List.insertionSort (fun a b : ℤ => a ≤ b) l).dedup

/-- `_prepare_monthly_expenses`: expense rows grouped by the `month`
column (only months actually present), summed, sorted ascending by month
and negated into positive magnitudes. -/
def prepareMonthlyExpenses (txs : List Tx) : List (ℤ × ℚ) :=
  let expenses := txs.filter isExpenseTx
  (sortedDedup (expenses.map Tx.monthIdx)).map fun mi =>
    (mi, -((expenses.filter fun x => x.monthIdx == mi).map Tx.amount).sum)

def meanQ (l : List ℚ) : ℚ := l.sum / l.length

/-- `forecast_expenses`.  With fewer than 3 months of history the
historical mean (0 for an empty history) is projected over
`max(horizon_months, 1)` periods with the fixed summary; otherwise the
seasonal fit is attempted, its failure caught and converted into the mean
projection over `horizon_months` periods with a diagnostic summary. -/
def forecastExpenses (cfg : Config) (fit : Except String (List ℚ × String))
    (txs : List Tx) : ForecastResult :=
  let monthly := prepareMonthlyExpenses txs
  if monthly.length < 3 then
    let meanValue := if monthly.isEmpty then 0 else meanQ (monthly.map Prod.snd)
    { history := monthly
      forecast := List.replicate (max cfg.forecast.horizon_months 1) meanValue
      model_summary := "Media simples por falta de dados." }
  else
    match fit with
    | .ok (future, summary) =>
        { history := monthly, forecast := future, model_summary := summary }
    | .error exc =>
        { history := monthly
          forecast := List.replicate cfg.forecast.horizon_months
            (meanQ (monthly.map Prod.snd))
          model_summary := "Holt-Winters falhou (" ++ exc ++ "); utilizando media." }

/-! ### Quality assessor (`data_quality.MonthlyDataQualityModel`)

`_build_monthly_features` groups the table by calendar month and
aggregates each group.  The `std_*` columns (sample standard deviations,
square roots over ℚ) are omitted: they feed only the scaler + OneClassSVM
pipeline, which is itself a black box abstracted by the `svm` scoring
parameter.  The claims settled here never reach that pipeline.  The
`is_anomaly` / missing-amount columns of the standalone invocation path
default to zero flags, as in the source when the columns are absent
(`amount` is total after `astype(float)`). -/

structure MonthAgg where
  monthIdx : ℤ
  total_transactions : ℕ
  expense_sum : ℚ
  income_sum : ℚ
  avg_expense : ℚ
  avg_income : ℚ
  avg_abs_amount : ℚ
  weekend_frac : ℚ      -- source column `weekend_rat` ++ `io`
  subscription_frac : ℚ
  refund_frac : ℚ
  anomaly_frac : ℚ
  missing_amount_frac : ℚ
  largest_expense : ℚ
  net_cashflow : ℚ
  expense_per_transaction : ℚ
  income_per_transaction : ℚ
  deriving Repr, DecidableEq

/-- `np.where(type == "expense", -amount, 0.0)`. -/
def expenseValue (tx : Tx) : ℚ := if isExpenseTx tx then -tx.amount else 0

/-- `np.where(type != "expense", amount, 0.0)`. -/
def incomeValue (tx : Tx) : ℚ := if isExpenseTx tx then 0 else tx.amount

def listMax (l : List ℚ) : ℚ :=
  match l with
  | [] => 0
  | h :: t => t.foldl max h

def monthAggOf (mi : ℤ) (grp : List Tx) : MonthAgg :=
  let n := grp.length
  let es := (grp.map expenseValue).sum
  let is' := (grp.map incomeValue).sum
  { monthIdx := mi
    total_transactions := n
    expense_sum := es
    income_sum := is'
    avg_expense := meanQ (grp.map expenseValue)
    avg_income := meanQ (grp.map incomeValue)
    avg_abs_amount := meanQ (grp.map Tx.abs_amount)
    weekend_frac := meanQ (grp.map fun tx => if tx.is_weekend then 1 else 0)
    subscription_frac := meanQ (grp.map fun tx => if tx.isSub then 1 else 0)
    refund_frac := meanQ (grp.map fun tx =>
      if tx.transaction_type == "refund" then 1 else 0)
    anomaly_frac := 0
    missing_amount_frac := 0
    largest_expense := listMax (grp.map expenseValue)
    net_cashflow := is' - es
    expense_per_transaction := es / max n 1
    income_per_transaction := is' / max n 1 }

/-- `_build_monthly_features`: one aggregate row per month present,
sorted ascending by month. -/
def buildMonthlyFeatures (txs : List Tx) : List MonthAgg :=
  (sortedDedup (txs.map Tx.monthIdx)).map fun mi =>
    monthAggOf mi (txs.filter fun x => x.monthIdx == mi)

structure QualityRow where
  agg : MonthAgg
  quality_score : ℚ
  quality_flag : Bool
  deriving Repr, DecidableEq

structure DataQualityResult where
  monthly_summary : List QualityRow
  /-- `some ()` iff the scaler + SVM pipeline was fitted. -/
  model : Option Unit
  threshold : ℚ
  deriving Repr, DecidableEq

/-- `MonthlyDataQualityModel.score`.  `svm` abstracts
`pipeline.fit(m); pipeline.decision_function(m)` (the empty-table branch
stores float `NaN` scores in a table with no rows, so the summary is an
empty row list either way). -/
def qualityScore (cfg : Config) (svm : List MonthAgg → List ℚ)
    (txs : List Tx) : DataQualityResult :=
  let monthly := buildMonthlyFeatures txs
  if monthly.isEmpty then
    { monthly_summary := [], model := none,
      threshold := cfg.quality.score_threshold }
  else if monthly.length < cfg.quality.min_months then
    { monthly_summary := monthly.map fun agg =>
        { agg := agg, quality_score := 0, quality_flag := false }
      model := none
      threshold := cfg.quality.score_threshold }
  else
    let scores := svm monthly
    { monthly_summary := (monthly.zip scores).map fun p =>
        { agg := p.1, quality_score := p.2
          quality_flag := p.2 < cfg.quality.score_threshold }
      model := some ()
      threshold := cfg.quality.score_threshold }

/-! ### Insight composer (`insights._cashflow_metrics`)

`average_daily_spend` is embedded as an `Option ℚ` where `none` stands
for the float `NaN` a pandas mean over zero groups produces.  The final
`float(average_daily_spend or 0.0)` maps a *falsy* value (`0.0`) to
`0.0`, but `NaN` is truthy in Python and passes through unchanged. -/

structure CashflowMetrics where
  total_expense : ℚ
  total_income : ℚ
  net_cashflow : ℚ
  average_daily_spend : Option ℚ
  deriving Repr, DecidableEq

def cashflowMetrics (txs : List Tx) : CashflowMetrics :=
  let expenses := txs.filter isExpenseTx
  let totalExpense := -(expenses.map Tx.amount).sum
  let totalIncome := ((txs.filter fun tx => !isExpenseTx tx).map Tx.amount).sum
  let days := sortedDedup (expenses.map Tx.date_only)
  let dailySums := days.map fun d =>
    ((expenses.filter fun tx => tx.date_only == d).map Tx.amount).sum
  let rawAvg : Option ℚ :=
    if dailySums.isEmpty then none else some (-(meanQ dailySums))
  { total_expense := totalExpense
    total_income := totalIncome
    net_cashflow := totalIncome - totalExpense
    average_daily_spend :=
      match rawAvg with
      | none => none                        -- NaN or 0.0 ⇒ NaN (truthy)
      | some v => if v = 0 then some 0 else some v }

/-! ### Concrete instances used by the theorems below -/

def mkDateTx (y m d : ℤ) (tod : ℚ) (title : String) (amt : ℚ) : Tx :=
  classifyRaw defaultConfig ⟨some ⟨y, m, d, tod⟩, some title, amt⟩ ⟨y, m, d, tod⟩

def uberRaw : RawTx := ⟨some ⟨2024, 1, 15, 0⟩, some "Uber Trip", 25⟩

def uberTx : Tx := classifyRaw defaultConfig uberRaw ⟨2024, 1, 15, 0⟩

def zeroRaw : RawTx := ⟨some ⟨2024, 1, 10, 0⟩, some "compra teste", 0⟩

def incomeOnlyTx : Tx := mkDateTx 2024 1 5 0 "pagamento recebido" 500

def janTx : Tx := mkDateTx 2024 1 10 0 "mercado" 30

def febTx : Tx := mkDateTx 2024 2 10 0 "mercado" 50

def marTx : Tx := mkDateTx 2024 3 10 0 "mercado" 70

def tieTxA : Tx := mkDateTx 2024 3 1 0 "loja a" 10

def tieTxB : Tx := mkDateTx 2024 3 1 0 "loja b" 20

def leakTx1 : Tx := mkDateTx 2024 1 15 0 "padaria compra" 50

def leakTx2 : Tx := mkDateTx 2024 3 31 (3/8) "padaria compra" 10

def leakTx3 : Tx := mkDateTx 2024 3 31 (5/8) "padaria compra" 100

def txsLeakA : List Tx := [leakTx1, leakTx2]

def txsLeakB : List Tx := [leakTx1, leakTx2, leakTx3]

/-! ## Theorems -/

/-- The classifier takes exactly one of its three branches. -/
theorem classify_cases (cfg : Config) (d : String) (a : ℚ) :
    classifyTransaction cfg d a = ("income", |a|) ∨
    classifyTransaction cfg d a = ("refund", |a|) ∨
    classifyTransaction cfg d a = ("expense", -|a|) := by
  unfold classifyTransaction
  split_ifs <;> simp

/-- C1 (counterexample): a transaction with raw amount `0` and no
income/refund keyword is classified as an expense with stored signed
amount `-abs(0) = 0`, which is not negative, so the claimed equivalence
"stored amount negative ⇔ type = expense" fails on this record. -/
theorem C1_counterexample :
    ¬ (∀ tx ∈ prepareTransactions defaultConfig [zeroRaw],
        (tx.transaction_type = "expense" ∨ tx.transaction_type = "income" ∨
          tx.transaction_type = "refund") ∧
        (tx.amount < 0 ↔ tx.transaction_type = "expense")) := by
  decide

/-- C1 (amended): after classification every record has
`transaction_type ∈ {expense, income, refund}`; income/refund records
store `+abs(amount)`, expense records store `-abs(amount)`; a negative
stored amount implies type expense, and an expense record's stored amount
is negative whenever it is nonzero (a zero raw amount yields an expense
stored as `0`). -/
theorem C1_amended (cfg : Config) (rows : List RawTx) :
    ∀ tx ∈ prepareTransactions cfg rows,
      (tx.transaction_type = "expense" ∨ tx.transaction_type = "income" ∨
        tx.transaction_type = "refund") ∧
      (tx.amount < 0 → tx.transaction_type = "expense") ∧
      (tx.transaction_type = "expense" → tx.amount = -tx.abs_amount) ∧
      (tx.transaction_type ≠ "expense" → tx.amount = tx.abs_amount) ∧
      (tx.transaction_type = "expense" → tx.amount ≠ 0 → tx.amount < 0) := by
  intro tx htx
  rw [prepareTransactions, sortT, (List.perm_insertionSort leT _).mem_iff,
    List.mem_filterMap] at htx
  obtain ⟨r, -, hr⟩ := htx
  rw [Option.map_eq_some'] at hr
  obtain ⟨ts, -, rfl⟩ := hr
  rcases classify_cases cfg (r.title.getD "Desconhecido") r.amount with h | h | h <;>
    simp only [classifyRaw, h]
  · exact ⟨Or.inr (Or.inl trivial),
      fun hlt => absurd hlt (not_lt.mpr (abs_nonneg _)),
      fun he => absurd he (by decide), fun _ => (abs_abs _).symm,
      fun he => absurd he (by decide)⟩
  · exact ⟨Or.inr (Or.inr trivial),
      fun hlt => absurd hlt (not_lt.mpr (abs_nonneg _)),
      fun he => absurd he (by decide), fun _ => (abs_abs _).symm,
      fun he => absurd he (by decide)⟩
  · exact ⟨Or.inl trivial, fun _ => trivial, fun _ => by rw [abs_neg, abs_abs],
      fun hne => absurd rfl hne,
      fun _ hne => neg_lt_zero.mpr (abs_pos.mpr (abs_ne_zero.mp (neg_ne_zero.mp hne)))⟩

/-- C1 (witness): the amended invariant instantiated on the pipeline
output for the "Uber Trip" transaction. -/
theorem C1_amended_witness :
    uberTx ∈ prepareTransactions defaultConfig [uberRaw] ∧
    ((uberTx.transaction_type = "expense" ∨ uberTx.transaction_type = "income" ∨
        uberTx.transaction_type = "refund") ∧
      (uberTx.amount < 0 → uberTx.transaction_type = "expense") ∧
      (uberTx.transaction_type = "expense" → uberTx.amount = -uberTx.abs_amount) ∧
      (uberTx.transaction_type ≠ "expense" → uberTx.amount = uberTx.abs_amount) ∧
      (uberTx.transaction_type = "expense" → uberTx.amount ≠ 0 →
        uberTx.amount < 0)) :=
  ⟨by decide, C1_amended defaultConfig [uberRaw] uberTx (by decide)⟩

/-- C5 (counterexample): the pipeline classifies the "Uber Trip" / `25.0`
transaction as an expense with stored amount `-25`, but its category is
the label `"Transporte"` of the configured mapping, not
`"Transportation"` as claimed (no such label exists in the mapping). -/
theorem C5_counterexample :
    (prepareTransactions defaultConfig [uberRaw]).map
        (fun tx => (tx.transaction_type, tx.category, tx.amount)) =
      [("expense", "Transporte", -25)] ∧
    ("Transporte" : String) ≠ "Transportation" := by
  decide

/-- C5 (amended): a transaction with description "Uber Trip" and positive
raw amount `25.0` is classified as an expense with category `"Transporte"`
and stored signed amount `-25`. -/
theorem C5_amended :
    (prepareTransactions defaultConfig [uberRaw]).map
        (fun tx => (tx.transaction_type, tx.category, tx.amount)) =
      [("expense", "Transporte", -25)] := by
  decide

/-- C6 (code bug): on an input with no expense transactions at all the
per-day expense mean is a pandas mean over zero groups, i.e. float `NaN`
(embedded as `none`); `float(average_daily_spend or 0.0)` does not
replace it by `0.0` because `NaN` is truthy, so `average_daily_spend` is
`NaN`, not the `0` the claim (and the `or 0.0` guard's evident intent)
requires.  The `net_cashflow = total_income - total_expense` part of the
claim does hold on the same input. -/
theorem C6_no_expense_days_nan :
    (cashflowMetrics [incomeOnlyTx]).average_daily_spend = none ∧
    (cashflowMetrics [incomeOnlyTx]).average_daily_spend ≠ some 0 ∧
    (cashflowMetrics [incomeOnlyTx]).net_cashflow =
      (cashflowMetrics [incomeOnlyTx]).total_income -
        (cashflowMetrics [incomeOnlyTx]).total_expense := by
  decide

/-- C9: under the default configuration the income keyword list is
consulted before the refund keyword list, and `"estorno"` belongs to
both, so a positive-amount transaction whose description contains a
keyword lying in both lists is always classified income, never refund. -/
theorem C9_shared_keyword_income :
    ("estorno" ∈ defaultConfig.income_keywords ∧
      "estorno" ∈ defaultConfig.refund_keywords) ∧
    ∀ (d : String) (a : ℚ), 0 < a →
      (∃ k, k ∈ defaultConfig.refund_keywords ∧
        k ∈ defaultConfig.income_keywords ∧
        containsSub (strLower d) k = true) →
      (classifyTransaction defaultConfig d a).1 = "income" := by
  refine ⟨⟨by decide, by decide⟩, ?_⟩
  rintro d a ha ⟨k, -, hkI, hc⟩
  have hinc : isIncome defaultConfig d a = true := by
    rw [isIncome, if_neg (not_lt.mpr ha.le)]
    exact List.any_eq_true.mpr ⟨k, hkI, hc⟩
  rw [classifyTransaction, if_pos hinc]

/-- C9 (witness): a positive transaction titled "Estorno compra" is
classified income. -/
theorem C9_shared_keyword_income_witness :
    (0 : ℚ) < 50 ∧
    (classifyTransaction defaultConfig "Estorno compra" 50).1 = "income" :=
  ⟨by norm_num,
    C9_shared_keyword_income.2 "Estorno compra" 50 (by norm_num)
      ⟨"estorno", by decide, by decide, by decide⟩⟩

/-- C2: with at least 3 months of expense history, a failing seasonal fit
is caught: the forecast has exactly the configured horizon length, every
value is the mean of the monthly history, and the summary is the
non-empty diagnostic text recording the failure reason. -/
theorem C2_fit_failure_fallback (cfg : Config) (txs : List Tx) (exc : String)
    (h3 : 3 ≤ (prepareMonthlyExpenses txs).length) :
    (forecastExpenses cfg (.error exc) txs).forecast.length =
      cfg.forecast.horizon_months ∧
    (∀ v ∈ (forecastExpenses cfg (.error exc) txs).forecast,
      v = meanQ ((prepareMonthlyExpenses txs).map Prod.snd)) ∧
    (forecastExpenses cfg (.error exc) txs).model_summary =
      "Holt-Winters falhou (" ++ exc ++ "); utilizando media." ∧
    (forecastExpenses cfg (.error exc) txs).model_summary ≠ "" := by
  have hres : forecastExpenses cfg (.error exc) txs =
      { history := prepareMonthlyExpenses txs
        forecast := List.replicate cfg.forecast.horizon_months
          (meanQ ((prepareMonthlyExpenses txs).map Prod.snd))
        model_summary :=
          "Holt-Winters falhou (" ++ exc ++ "); utilizando media." } := by
    simp only [forecastExpenses]
    rw [if_neg (by omega)]
  rw [hres]
  refine ⟨List.length_replicate _ _, fun v hv => (List.mem_replicate.mp hv).2,
    rfl, ?_⟩
  intro hemp
  have h := congrArg String.length hemp
  rw [String.length_append, String.length_append] at h
  have h1 : ("Holt-Winters falhou (" : String).length = 21 := rfl
  have h2 : ("); utilizando media." : String).length = 20 := rfl
  have h0 : ("" : String).length = 0 := rfl
  rw [h1, h2, h0] at h
  omega

/-- C2 (witness): three expense months and a raised fit. -/
theorem C2_fit_failure_fallback_witness :
    3 ≤ (prepareMonthlyExpenses [janTx, febTx, marTx]).length ∧
    ((forecastExpenses defaultConfig (.error "falha") [janTx, febTx, marTx]).forecast.length =
      defaultConfig.forecast.horizon_months ∧
    (∀ v ∈ (forecastExpenses defaultConfig (.error "falha") [janTx, febTx, marTx]).forecast,
      v = meanQ ((prepareMonthlyExpenses [janTx, febTx, marTx]).map Prod.snd)) ∧
    (forecastExpenses defaultConfig (.error "falha") [janTx, febTx, marTx]).model_summary =
      "Holt-Winters falhou (" ++ "falha" ++ "); utilizando media." ∧
    (forecastExpenses defaultConfig (.error "falha") [janTx, febTx, marTx]).model_summary ≠ "") :=
  ⟨by decide,
    C2_fit_failure_fallback defaultConfig [janTx, febTx, marTx] "falha" (by decide)⟩

/-- C8: with exactly 2 months of expense history the forecaster takes the
insufficient-history branch and every projected value is the arithmetic
mean of the 2 monthly totals. -/
theorem C8_two_month_mean (cfg : Config) (fit : Except String (List ℚ × String))
    (txs : List Tx) (h2 : (prepareMonthlyExpenses txs).length = 2) :
    ∀ v ∈ (forecastExpenses cfg fit txs).forecast,
      v = ((prepareMonthlyExpenses txs).map Prod.snd).sum / 2 := by
  have hlt : (prepareMonthlyExpenses txs).length < 3 := by omega
  have hne : (prepareMonthlyExpenses txs).isEmpty = false := by
    cases hmp : prepareMonthlyExpenses txs with
    | nil => rw [hmp] at h2; simp at h2
    | cons a l => rfl
  have hres : forecastExpenses cfg fit txs =
      { history := prepareMonthlyExpenses txs
        forecast := List.replicate (max cfg.forecast.horizon_months 1)
          (meanQ ((prepareMonthlyExpenses txs).map Prod.snd))
        model_summary := "Media simples por falta de dados." } := by
    simp only [forecastExpenses]
    rw [if_pos hlt, if_neg (by simp [hne])]
  rw [hres]
  intro v hv
  rw [(List.mem_replicate.mp hv).2, meanQ, List.length_map, h2]
  norm_num

/-- C8 (witness): January `30` and February `50` project the constant
mean `40`. -/
theorem C8_two_month_mean_witness :
    (prepareMonthlyExpenses [janTx, febTx]).length = 2 ∧
    (40 : ℚ) ∈ (forecastExpenses defaultConfig (.error "na") [janTx, febTx]).forecast ∧
    (40 : ℚ) = ((prepareMonthlyExpenses [janTx, febTx]).map Prod.snd).sum / 2 :=
  ⟨by decide, by decide,
    C8_two_month_mean defaultConfig (.error "na") [janTx, febTx] (by decide)
      40 (by decide)⟩

/-- C10: on an input with no expense transaction the forecaster does not
raise: it returns an empty history, a forecast of the configured horizon
length (for any positive configured horizon) whose every value is `0`,
and the fixed fallback summary. -/
theorem C10_no_expense_rows (cfg : Config) (fit : Except String (List ℚ × String))
    (txs : List Tx) (hall : ∀ tx ∈ txs, tx.transaction_type ≠ "expense")
    (hh : 1 ≤ cfg.forecast.horizon_months) :
    (forecastExpenses cfg fit txs).history = [] ∧
    (forecastExpenses cfg fit txs).forecast.length = cfg.forecast.horizon_months ∧
    (∀ v ∈ (forecastExpenses cfg fit txs).forecast, v = 0) ∧
    (forecastExpenses cfg fit txs).model_summary =
      "Media simples por falta de dados." := by
  have hfil : txs.filter isExpenseTx = [] :=
    List.filter_eq_nil_iff.mpr fun tx htx => by
      simp [isExpenseTx, hall tx htx]
  have hempty : prepareMonthlyExpenses txs = [] := by
    simp [prepareMonthlyExpenses, hfil, sortedDedup]
  have hres : forecastExpenses cfg fit txs =
      { history := []
        forecast := List.replicate (max cfg.forecast.horizon_months 1) 0
        model_summary := "Media simples por falta de dados." } := by
    simp only [forecastExpenses, hempty]
    norm_num
  have hmax : max cfg.forecast.horizon_months 1 = cfg.forecast.horizon_months := by
    omega
  rw [hres]
  exact ⟨rfl, by rw [List.length_replicate, hmax],
    fun v hv => (List.mem_replicate.mp hv).2, rfl⟩

/-- C10 (witness): a single income transaction. -/
theorem C10_no_expense_rows_witness :
    (∀ tx ∈ [incomeOnlyTx], tx.transaction_type ≠ "expense") ∧
    1 ≤ defaultConfig.forecast.horizon_months ∧
    ((forecastExpenses defaultConfig (.error "na") [incomeOnlyTx]).history = [] ∧
    (forecastExpenses defaultConfig (.error "na") [incomeOnlyTx]).forecast.length =
      defaultConfig.forecast.horizon_months ∧
    (∀ v ∈ (forecastExpenses defaultConfig (.error "na") [incomeOnlyTx]).forecast,
      v = 0) ∧
    (forecastExpenses defaultConfig (.error "na") [incomeOnlyTx]).model_summary =
      "Media simples por falta de dados.") :=
  ⟨by decide, by decide,
    C10_no_expense_rows defaultConfig (.error "na") [incomeOnlyTx]
      (by decide) (by decide)⟩

/-- C3: with at least one but fewer than the configured minimum number of
distinct months the quality assessor scores every month `0`, flags none,
and fits no model — independently of the scoring pipeline `svm`. -/
theorem C3_insufficient_months (cfg : Config) (svm : List MonthAgg → List ℚ)
    (txs : List Tx) (h1 : 1 ≤ (buildMonthlyFeatures txs).length)
    (hlt : (buildMonthlyFeatures txs).length < cfg.quality.min_months) :
    (qualityScore cfg svm txs).model = none ∧
    ∀ row ∈ (qualityScore cfg svm txs).monthly_summary,
      row.quality_score = 0 ∧ row.quality_flag = false := by
  have hne : (buildMonthlyFeatures txs).isEmpty = false := by
    cases hmp : buildMonthlyFeatures txs with
    | nil => rw [hmp] at h1; simp at h1
    | cons a l => rfl
  have hres : qualityScore cfg svm txs =
      { monthly_summary := (buildMonthlyFeatures txs).map fun agg =>
          { agg := agg, quality_score := 0, quality_flag := false }
        model := none
        threshold := cfg.quality.score_threshold } := by
    simp only [qualityScore]
    rw [if_neg (by simp [hne]), if_pos hlt]
  rw [hres]
  refine ⟨rfl, fun row hrow => ?_⟩
  obtain ⟨agg, -, rfl⟩ := List.mem_map.mp hrow
  exact ⟨rfl, rfl⟩

/-- C3 (witness): two months of data under the default minimum of 4. -/
theorem C3_insufficient_months_witness :
    (1 ≤ (buildMonthlyFeatures [janTx, febTx]).length ∧
      (buildMonthlyFeatures [janTx, febTx]).length <
        defaultConfig.quality.min_months) ∧
    ((qualityScore defaultConfig (fun _ => []) [janTx, febTx]).model = none ∧
    ∀ row ∈ (qualityScore defaultConfig (fun _ => []) [janTx, febTx]).monthly_summary,
      row.quality_score = 0 ∧ row.quality_flag = false) :=
  ⟨⟨by decide, by decide⟩,
    C3_insufficient_months defaultConfig (fun _ => []) [janTx, febTx]
      (by decide) (by decide)⟩

/-- Splitting the feature scan along a decomposition of the sorted
table. -/
theorem scanRows_append (xs : List Tx) :
    ∀ (pre ys : List Tx),
      scanRows pre (xs ++ ys) = scanRows pre xs ++ scanRows (pre ++ xs) ys := by
  induction xs with
  | nil => intro pre ys; simp [scanRows]
  | cons c xs ih =>
      intro pre ys
      simp only [List.cons_append, scanRows, List.append_eq]
      rw [ih (pre ++ [c]) ys]
      simp [List.append_assoc]

/-- The transaction column of the feature rows is the sorted table
itself. -/
theorem scanRows_map_tx : ∀ (l pre : List Tx),
    (scanRows pre l).map FeatRow.tx = l := by
  intro l
  induction l with
  | nil => intro pre; rfl
  | cons c rest ih => intro pre; simp [scanRows, rollRow, ih]

theorem mem_scanRows_tx {row : FeatRow} {pre l : List Tx}
    (h : row ∈ scanRows pre l) : row.tx ∈ l := by
  have := List.mem_map_of_mem FeatRow.tx h
  rwa [scanRows_map_tx] at this

/-- Below a cut instant, filtering a sorted table is taking its initial
segment. -/
theorem sorted_filter_eq_takeWhile (t : ℚ) :
    ∀ (l : List Tx), List.Sorted leT l →
      l.filter (cutoff t) = l.takeWhile (cutoff t) := by
  intro l hl
  induction l with
  | nil => rfl
  | cons h tl ih =>
      rw [List.sorted_cons] at hl
      by_cases hc : cutoff t h
      · rw [List.filter_cons_of_pos hc, List.takeWhile_cons_of_pos hc,
          ih hl.2]
      · rw [List.filter_cons_of_neg hc, List.takeWhile_cons_of_neg hc]
        refine List.filter_eq_nil_iff.mpr fun x hx hcx => ?_
        have hle : absT h.ts ≤ absT x.ts := hl.1 x hx
        have hxt : absT x.ts ≤ t := of_decide_eq_true hcx
        exact hc (decide_eq_true (le_trans hle hxt))

/-- Beyond the initial segment of a sorted table every record lies after
the cut instant. -/
theorem sorted_dropWhile_cutoff (t : ℚ) :
    ∀ (l : List Tx), List.Sorted leT l →
      ∀ x ∈ l.dropWhile (cutoff t), cutoff t x = false := by
  intro l hl
  induction l with
  | nil => intro x hx; simp at hx
  | cons h tl ih =>
      rw [List.sorted_cons] at hl
      by_cases hc : cutoff t h
      · rw [List.dropWhile_cons_of_pos hc]
        exact ih hl.2
      · rw [List.dropWhile_cons_of_neg hc]
        intro x hx
        rcases List.mem_cons.mp hx with rfl | hx
        · exact Bool.eq_false_iff.mpr hc
        · refine Bool.eq_false_iff.mpr fun hcx => ?_
          have hle : absT h.ts ≤ absT x.ts := hl.1 x hx
          have hxt : absT x.ts ≤ t := of_decide_eq_true hcx
          exact hc (decide_eq_true (le_trans hle hxt))

/-- The feature rows at or before a cut instant are exactly the feature
scan of the initial segment of the sorted table: rolling features read
no record beyond the cut. -/
theorem scanRows_filter_cutoff (t : ℚ) (l : List Tx)
    (hl : List.Sorted leT l) :
    (scanRows [] l).filter (fun row => cutoff t row.tx) =
      scanRows [] (l.takeWhile (cutoff t)) := by
  conv_lhs => rw [← List.takeWhile_append_dropWhile (cutoff t) l]
  rw [scanRows_append, List.filter_append, List.nil_append]
  have h1 : (scanRows [] (l.takeWhile (cutoff t))).filter
      (fun row => cutoff t row.tx) = scanRows [] (l.takeWhile (cutoff t)) :=
    List.filter_eq_self.mpr fun row hrow =>
      List.mem_takeWhile_imp (mem_scanRows_tx hrow)
  have h2 : (scanRows (l.takeWhile (cutoff t)) (l.dropWhile (cutoff t))).filter
      (fun row => cutoff t row.tx) = [] :=
    List.filter_eq_nil_iff.mpr fun row hrow hcx => by
      have := sorted_dropWhile_cutoff t l hl row.tx (mem_scanRows_tx hrow)
      rw [this] at hcx
      exact Bool.false_ne_true hcx
  rw [h1, h2, List.append_nil]

/-- A sorted table with pairwise-distinct timestamps is strictly
sorted. -/
theorem sorted_ltT_of_nodup {l : List Tx} (hl : List.Sorted leT l)
    (hnd : (l.map fun tx => absT tx.ts).Nodup) : List.Sorted ltT l := by
  have hne : l.Pairwise fun a b => absT a.ts ≠ absT b.ts :=
    List.pairwise_map.mp hnd
  exact (hl.and hne).imp fun h => lt_of_le_of_ne h.1 h.2

/-- Any two ascending sorts of permuted tables with pairwise-distinct
timestamps coincide. -/
theorem sortT_eq_of_perm_nodup {l l' : List Tx} (hp : l.Perm l')
    (hnd : (l.map fun tx => absT tx.ts).Nodup) : sortT l' = sortT l := by
  have hperm : (sortT l').Perm (sortT l) :=
    ((List.perm_insertionSort leT l').trans hp.symm).trans
      (List.perm_insertionSort leT l).symm
  have hndl : ((sortT l).map fun tx => absT tx.ts).Nodup :=
    (((List.perm_insertionSort leT l).map _).nodup_iff).mpr hnd
  have hndl' : ((sortT l').map fun tx => absT tx.ts).Nodup :=
    ((hperm.map _).nodup_iff).mpr hndl
  exact List.eq_of_perm_of_sorted hperm
    (sorted_ltT_of_nodup (List.sorted_insertionSort leT l') hndl')
    (sorted_ltT_of_nodup (List.sorted_insertionSort leT l) hndl)

/-- C7 (counterexample): two expense rows sharing one timestamp.  The
time-based rolling window at a row covers only positions at or before it,
so permuting the two tied rows changes the rolling sums attached to them:
the claimed invariance of per-transaction rolling features under row
permutation fails. -/
theorem C7_counterexample :
    [tieTxA, tieTxB].Perm [tieTxB, tieTxA] ∧
    ¬ ((rollingFeatures [tieTxA, tieTxB] : Multiset FeatRow) =
        (rollingFeatures [tieTxB, tieTxA] : Multiset FeatRow)) := by
  constructor
  · exact List.Perm.swap tieTxB tieTxA []
  · decide

/-- C7 (amended): on tables whose timestamps are pairwise distinct the
rolling-window features are invariant under any permutation of the input
rows — the whole feature table, transaction column included, is
reproduced identically. -/
theorem C7_amended (l l' : List Tx)
    (hnd : (l.map fun tx => absT tx.ts).Nodup) (hp : l.Perm l') :
    rollingFeatures l' = rollingFeatures l := by
  rw [rollingFeatures, rollingFeatures, sortT_eq_of_perm_nodup hp hnd]

/-- C7 (witness): swapping two distinct-timestamp rows. -/
theorem C7_amended_witness :
    rollingFeatures [febTx, janTx] = rollingFeatures [janTx, febTx] :=
  C7_amended [janTx, febTx] [febTx, janTx] (by decide)
    (List.Perm.swap febTx janTx [])

/-- C4 (counterexample): histories `A = [Jan-15, Mar-31 09:00]` and
`B = A ++ [Mar-31 15:00]` agree on every record with timestamp up to and
including the Mar-31 09:00 record's, yet `month_total_expense` assigned
to that record differs (`-10` vs `-110`): the month totals are resampled
over the whole table and forward-filled from month-end labels, so a
record at the month-end day reads expense rows with strictly later
timestamps.  The claimed independence of features from later records
fails. -/
theorem C4_counterexample :
    txsLeakA.filter (cutoff (absT leakTx2.ts)) =
      txsLeakB.filter (cutoff (absT leakTx2.ts)) ∧
    ((engineerFeatures txsLeakA).filter fun row => row.base.tx == leakTx2).map
        EngRow.month_total_expense = [some (-10)] ∧
    ((engineerFeatures txsLeakB).filter fun row => row.base.tx == leakTx2).map
        EngRow.month_total_expense = [some (-110)] ∧
    some (-10 : ℚ) ≠ some (-110 : ℚ) := by
  decide

/-- C4 (amended): for tables with pairwise-distinct timestamps that agree
on all records with timestamp up to and including `t` (the timestamp of a
record `r`), the feature engine assigns identical rolling-window feature
values (`rolling_7d/30d/90d_spend`, `rolling_7d/30d_income`) to `r` and
to every earlier record; the resampled-and-forward-filled columns
(`month_total_*`, `daily_spend_zscore`) are excluded, as they may read
later records of the same resample bucket. -/
theorem C4_amended (A B : List Tx) (t : ℚ) (r : Tx)
    (_hr : r ∈ A) (_hrt : absT r.ts = t)
    (hndA : (A.map fun tx => absT tx.ts).Nodup)
    (hndB : (B.map fun tx => absT tx.ts).Nodup)
    (hAB : A.filter (cutoff t) = B.filter (cutoff t)) :
    (rollingFeatures A).filter (fun row => cutoff t row.tx) =
      (rollingFeatures B).filter (fun row => cutoff t row.tx) := by
  have hsA : List.Sorted leT (sortT A) := List.sorted_insertionSort leT A
  have hsB : List.Sorted leT (sortT B) := List.sorted_insertionSort leT B
  have hkey : (sortT A).filter (cutoff t) = (sortT B).filter (cutoff t) := by
    have hpA : ((sortT A).filter (cutoff t)).Perm (A.filter (cutoff t)) :=
      (List.perm_insertionSort leT A).filter (cutoff t)
    have hpB : ((sortT B).filter (cutoff t)).Perm (B.filter (cutoff t)) :=
      (List.perm_insertionSort leT B).filter (cutoff t)
    have hperm : ((sortT A).filter (cutoff t)).Perm
        ((sortT B).filter (cutoff t)) :=
      (hpA.trans (hAB ▸ hpB.symm))
    have hndSA : (((sortT A).filter (cutoff t)).map
        fun tx => absT tx.ts).Nodup :=
      (((List.filter_sublist (sortT A)).map _).nodup
        (((List.perm_insertionSort leT A).map _).nodup_iff.mpr hndA))
    have hndSB : (((sortT B).filter (cutoff t)).map
        fun tx => absT tx.ts).Nodup :=
      (((List.filter_sublist (sortT B)).map _).nodup
        (((List.perm_insertionSort leT B).map _).nodup_iff.mpr hndB))
    exact List.eq_of_perm_of_sorted hperm
      (sorted_ltT_of_nodup (hsA.filter _) hndSA)
      (sorted_ltT_of_nodup (hsB.filter _) hndSB)
  rw [rollingFeatures, rollingFeatures,
    scanRows_filter_cutoff t (sortT A) hsA,
    scanRows_filter_cutoff t (sortT B) hsB,
    ← sorted_filter_eq_takeWhile t (sortT A) hsA,
    ← sorted_filter_eq_takeWhile t (sortT B) hsB, hkey]

/-- C4 (witness): the amended statement instantiated on the concrete
distinct-timestamp histories of the counterexample, whose rolling
features at or before the Mar-31 09:00 record agree. -/
theorem C4_amended_witness :
    (rollingFeatures txsLeakA).filter
        (fun row => cutoff (absT leakTx2.ts) row.tx) =
      (rollingFeatures txsLeakB).filter
        (fun row => cutoff (absT leakTx2.ts) row.tx) :=
  C4_amended txsLeakA txsLeakB (absT leakTx2.ts) leakTx2 (by decide) rfl
    (by decide) (by decide) (by decide)

end FinanceAI
